import Mathlib

/-!
Verification of the sam3-lab temporal persistence / debounce engine
(`src/scenario_sleeping_detector.py`, class `SleepingDetector`) and of the
reliable delivery subsystem (`src/webhook_sender.py`, class `WebhookSender`).

Shallow embedding conventions:
* Instants (Python `datetime`) are modelled as rationals (seconds); the source
  only subtracts instants (`total_seconds()`), compares them, and adds
  `timedelta(seconds = k)`, all of which are exact on ℚ.
* Confidence scores, thresholds and box coordinates (Python floats) are
  modelled as rationals.  The source only compares and divides them; at all
  constants appearing in the source and in the scenarios below
  (0.3, 0.7, 1.2, 10/2, …) binary floating point evaluates these
  comparisons exactly as ℚ does.
* The SAM3 processor is an external collaborator: one call to
  `detect_sleeping_person` receives, in place of a frame, the list of
  per-prompt outputs (`scores`, `boxes`) that the processor would return for
  that frame.  An inference exception in the source prints and returns `None`
  after `last_check_time` was already updated, which is observationally the
  same as an empty output list, so the `try`/`except` needs no extra case.
* Strings that the source builds by interpolating numbers (the `when`
  ISO timestamp and the `why` sentence of an alert) are modelled by the
  underlying numeric values; fixed literal strings are kept verbatim.
-/

namespace Sam3Lab

/-- One detection record, as built in `detect_sleeping_person`
(`best_detection` dict): prompt used, score, optional bounding box
`[x1, y1, x2, y2]` (absent when the processor returned fewer boxes than
scores), the frame timestamp, and the derived `orientation` string
(assigned at line 111 of the source just before the history insertion;
empty until then, mirroring the Python dict lacking the key). -/
structure Det where
  prompt : String
  score : ℚ
  box : Option (ℚ × ℚ × ℚ × ℚ)
  timestamp : ℚ
  orient : String
deriving Repr, DecidableEq

/-- Output of the SAM3 processor for one text prompt on one frame:
`output.get("scores", [])` and `output.get("boxes", [])`.  (The masks are
never read downstream apart from a shape annotation the alert ignores, so
they are omitted.) -/
structure PromptResult where
  prompt : String
  scores : List ℚ
  boxes : List (ℚ × ℚ × ℚ × ℚ)
deriving Repr, DecidableEq

/-- Mutable state of a `SleepingDetector` instance together with its
constructor configuration (`confidence_threshold`, `persistence_seconds`,
`check_interval_seconds`); the configuration fields are never written after
construction. -/
structure DetectorState where
  confidence_threshold : ℚ
  persistence_seconds : ℚ
  check_interval : ℚ
  detections_history : List Det
  last_check_time : Option ℚ
  alert_cooldown_until : Option ℚ
deriving Repr, DecidableEq

/-- The 5W2H alert record built by `_create_alert`.  `whenTs` is the instant
rendered by `timestamp.isoformat()`; `whyPersistence` is the persistence
duration interpolated into the fixed `why` sentence. -/
structure Alert where
  what : String
  whenTs : ℚ
  whereLoc : String
  boundingBox : Option (ℚ × ℚ × ℚ × ℚ)
  boxOrient : String
  who : String
  whyPersistence : ℚ
  howMethod : String
  promptUsed : String
  confidenceScore : ℚ
  detCountInPeriod : ℕ
  persistenceSecs : ℚ
  alertType : String
  severity : String
  requiresAction : Bool
deriving Repr, DecidableEq

/-- `SleepingDetector.__init__` with empty tracking state
(`detections_history = []`, `last_check_time = None`,
`alert_cooldown_until = None`). -/
def mkDetector (threshold p c : ℚ) : DetectorState :=
  { confidence_threshold := threshold
    persistence_seconds := p
    check_interval := c
    detections_history := []
    last_check_time := none
    alert_cooldown_until := none }

/-- `SleepingDetector.should_check_frame`: process the frame if no check has
happened yet, or the elapsed time since `last_check_time` reaches
`check_interval`. -/
def should_check_frame (s : DetectorState) (current_time : ℚ) : Bool :=
  match s.last_check_time with
  | none => true
  | some t => decide (current_time - t ≥ s.check_interval)

/-- Line 71 of the source: `self.alert_cooldown_until and timestamp <
self.alert_cooldown_until` (a `None` cooldown is falsy; a set instant is
always truthy). -/
def cooldown_active (s : DetectorState) (timestamp : ℚ) : Bool :=
  match s.alert_cooldown_until with
  | none => false
  | some c => decide (timestamp < c)

/-- `SleepingDetector._analyze_orientation`: aspect ratio of the box, defined
as 0 for a zero-height box; a ratio above 1.2 is "horizontal" (lying down),
anything else "vertical". -/
def analyze_orient : ℚ × ℚ × ℚ × ℚ → String
  | (x1, y1, x2, y2) =>
    let width := |x2 - x1|
    let height := |y2 - y1|
    let ar := if height > 0 then width / height else 0
    if ar > 1.2 then "horizontal" else "vertical"

/-- `SleepingDetector._add_to_history`: append the detection, then keep only
entries with `timestamp > detection.timestamp - 60` (the 60-second retention
window, measured from the inserted detection's timestamp). -/
def add_to_history (s : DetectorState) (detection : Det) : DetectorState :=
  let h := s.detections_history ++ [detection]
  let cutoff := detection.timestamp - 60
  { s with detections_history := h.filter (fun d => decide (d.timestamp > cutoff)) }

/-- The qualifying subset used by `_check_persistence`: history entries with
`timestamp > current_time - persistence_seconds` and orientation
"horizontal". -/
def recent_horizontal (s : DetectorState) (current_time : ℚ) : List Det :=
  let cutoff := current_time - s.persistence_seconds
  s.detections_history.filter
    (fun d => decide (d.timestamp > cutoff) && decide (d.orient = "horizontal"))

/-- `SleepingDetector._check_persistence`: false when the whole history holds
fewer than 2 entries; otherwise true iff the count of recent horizontal
entries reaches `(persistence_seconds / check_interval) * 0.7`. -/
def check_persistence (s : DetectorState) (current_time : ℚ) : Bool :=
  if s.detections_history.length < 2 then false
  else
    decide ((recent_horizontal s current_time).length ≥
      s.persistence_seconds / s.check_interval * 0.7)

/-- `SleepingDetector._create_alert` (5W2H structure).  Called with the state
as it stands after the history insertion, so `detCountInPeriod` is
`len(self.detections_history)` at that point. -/
def create_alert (s : DetectorState) (detection : Det) (timestamp : ℚ) : Alert :=
  { what := "Pessoa dormindo detectada"
    whenTs := timestamp
    whereLoc := "Camera Feed"
    boundingBox := detection.box
    boxOrient := detection.orient
    who := "Sistema de Detecção SAM3"
    whyPersistence := s.persistence_seconds
    howMethod := "SAM3 Text Prompt Detection"
    promptUsed := detection.prompt
    confidenceScore := detection.score
    detCountInPeriod := s.detections_history.length
    persistenceSecs := s.persistence_seconds
    alertType := "sleeping_person"
    severity := "medium"
    requiresAction := true }

/-- The scan over one prompt's scores (lines 96-105): remember the detection
whenever `score > confidence_threshold and score > best_score`, taking
`boxes[i]` when the boxes list is long enough and `None` otherwise. -/
def scan_prompt (threshold timestamp : ℚ) (acc : Option Det × ℚ)
    (r : PromptResult) : Option Det × ℚ :=
  r.scores.enum.foldl
    (fun acc2 is =>
      if is.2 > threshold ∧ is.2 > acc2.2 then
        (some { prompt := r.prompt
                score := is.2
                box := r.boxes.get? is.1
                timestamp := timestamp
                orient := "" }, is.2)
      else acc2)
    acc

/-- The prompt loop of `detect_sleeping_person` (lines 81-105): fold the scan
over all prompt outputs starting from `best_detection = None`,
`best_score = 0`, and return the best detection. -/
def select_best (threshold timestamp : ℚ) (results : List PromptResult) :
    Option Det :=
  (results.foldl (scan_prompt threshold timestamp) (none, 0)).1

/-- `SleepingDetector.detect_sleeping_person`: the single entry point.
Returns the optional alert together with the updated detector state.
Control flow mirrors the source: interval gate, `last_check_time` update,
cooldown gate, best-detection selection, box presence test, orientation
analysis, history insertion for horizontal detections, persistence check,
and on alert the 30-second cooldown (`timestamp + timedelta(seconds=30)`). -/
def detect_sleeping_person (s : DetectorState) (results : List PromptResult)
    (timestamp : ℚ) : Option Alert × DetectorState :=
  if should_check_frame s timestamp then
    let s1 : DetectorState := { s with last_check_time := some timestamp }
    if cooldown_active s1 timestamp then (none, s1)
    else
      match select_best s1.confidence_threshold timestamp results with
      | none => (none, s1)
      | some bd =>
        match bd.box with
        | none => (none, s1)
        | some b =>
          let bd2 : Det := { bd with orient := analyze_orient b }
          if bd2.orient = "horizontal" then
            let s2 := add_to_history s1 bd2
            if check_persistence s2 timestamp then
              (some (create_alert s2 bd2 timestamp),
               { s2 with alert_cooldown_until := some (timestamp + 30) })
            else (none, s2)
          else (none, s1)
  else (none, s)

/-- Run the detector over a list of calls, `(prompt outputs, timestamp)` per
call, collecting the per-call results and the final state. -/
def run_detector (s : DetectorState) :
    List (List PromptResult × ℚ) → List (Option Alert) × DetectorState
  | [] => ([], s)
  | c :: rest =>
    let step := detect_sleeping_person s c.1 c.2
    let tail := run_detector step.2 rest
    (step.1 :: tail.1, tail.2)

/-! ## The delivery client (`src/webhook_sender.py`, `WebhookSender.send_alert`)

The HTTP endpoint is an external collaborator; one run of `send_alert` is
parameterised by an oracle giving, for each attempt number (1-based, as in
`range(1, retry_attempts + 1)`), what that attempt observes: an HTTP
response with some status code, or a transport failure (timeout, connection
error, or any other exception — the three `except` arms of the source all
print and fall through to the same retry logic, so one case suffices). -/

/-- What one delivery attempt observes at the endpoint. -/
inductive AttemptOutcome where
  | response (status : ℕ)
  | transportFailure
deriving Repr, DecidableEq

/-- `response.status_code in [200, 201, 202]` — the success statuses. -/
def success_status (st : ℕ) : Bool :=
  decide (st = 200 ∨ st = 201 ∨ st = 202)

/-- The status an attempt succeeds with, if any: a response with a success
status; any other response and any transport failure is a failed attempt. -/
def attempt_success : AttemptOutcome → Option ℕ
  | .response st => if success_status st then some st else none
  | .transportFailure => none

/-- Observable summary of one `send_alert` run: the returned boolean, the
status code of the successful response (if any), how many attempts were
made, and the list of sleeps performed between attempts (each the fixed
`retry_delay`, and none after the final attempt). -/
structure SendResult where
  success : Bool
  status : Option ℕ
  attempts : ℕ
  waits : List ℚ
deriving Repr, DecidableEq

/-- The retry loop of `WebhookSender.send_alert`, unrolled from attempt
number `attempt` with `remaining` loop iterations left: on a success status
return `True` at once; otherwise sleep `retry_delay` only when this was not
the last attempt (`if attempt < self.retry_attempts`), and fall through to
`False` after the loop. -/
def send_alert_from (oracle : ℕ → AttemptOutcome) (retry_delay : ℚ)
    (attempt : ℕ) : ℕ → SendResult
  | 0 => { success := false, status := none, attempts := 0, waits := [] }
  | remaining + 1 =>
    match attempt_success (oracle attempt) with
    | some st => { success := true, status := some st, attempts := 1, waits := [] }
    | none =>
      if remaining = 0 then
        { success := false, status := none, attempts := 1, waits := [] }
      else
        let rest := send_alert_from oracle retry_delay (attempt + 1) remaining
        { success := rest.success, status := rest.status,
          attempts := rest.attempts + 1, waits := retry_delay :: rest.waits }

/-- `WebhookSender.send_alert`: `for attempt in range(1, retry_attempts + 1)`. -/
def send_alert (oracle : ℕ → AttemptOutcome) (retry_attempts : ℕ)
    (retry_delay : ℚ) : SendResult :=
  send_alert_from oracle retry_delay 1 retry_attempts

/-! ## Concrete inputs and runs used by the scenario proofs -/

/-- A one-prompt processor output holding a single detection with the given
score and a wide box (aspect ratio 10, hence "horizontal"). -/
def horizResult (score : ℚ) : List PromptResult :=
  [{ prompt := "person sleeping", scores := [score], boxes := [(0, 0, 100, 10)] }]

/-- A qualifying horizontal sample as it sits in the history window. -/
def horizSample (t score : ℚ) : Det :=
  { prompt := "person sleeping", score := score, box := some (0, 0, 100, 10),
    timestamp := t, orient := "horizontal" }

/-- Scenario A history: qualifying samples at t = 0, 2, 4, 6, 8 fed through
`_add_to_history` on a detector with `persistence_seconds = 10`,
`check_interval_seconds = 2`. -/
def scenarioA_state : DetectorState :=
  [(0 : ℚ), 2, 4, 6, 8].foldl (fun s t => add_to_history s (horizSample t 0.5))
    (mkDetector 0.3 10 2)

/-- Scenario B history: only t = 0, 2, 4, same configuration. -/
def scenarioB_state : DetectorState :=
  [(0 : ℚ), 2, 4].foldl (fun s t => add_to_history s (horizSample t 0.5))
    (mkDetector 0.3 10 2)

/-- State of a detector with `persistence_seconds = 2`,
`check_interval_seconds = 2` after one qualifying call at t = 0 (one sample
in history, no alert yet). -/
def fireStart : DetectorState :=
  (detect_sleeping_person (mkDetector 0.3 2 2) (horizResult 0.5) 0).2

/-- A second qualifying call at t = 2 on `fireStart` fires; this is the
post-alert state (cooldown until t = 32). -/
def c8_s2 : DetectorState :=
  (detect_sleeping_person fireStart (horizResult 0.5) 2).2

/-- A qualifying call during the cooldown window, at t = 4. -/
def c8_run : Option Alert × DetectorState :=
  detect_sleeping_person c8_s2 (horizResult 0.5) 4

/-- A qualifying call on `fireStart` at t = 50: the only history entry
within the 2-second persistence window is the new sample itself. -/
def c4_run : Option Alert × DetectorState :=
  detect_sleeping_person fireStart (horizResult 0.5) 50

/-- Detector with `persistence_seconds = 4`, `check_interval_seconds = 2`
after a qualifying call at t = 0 with score 0.9. -/
def c5_start : DetectorState :=
  (detect_sleeping_person (mkDetector 0.3 4 2) (horizResult 0.9) 0).2

/-- A second qualifying call at t = 2 with the lower score 0.5. -/
def c5_run : Option Alert × DetectorState :=
  detect_sleeping_person c5_start (horizResult 0.5) 2

/-- Default-configuration detector after one qualifying call at t = 0. -/
def c6_s1 : DetectorState :=
  (detect_sleeping_person (mkDetector 0.3 10 2) (horizResult 0.5) 0).2

/-- A detection-free call at t = 70 on `c6_s1`: the gate passes but nothing
is inserted, so nothing is pruned either. -/
def c6_run : DetectorState :=
  (detect_sleeping_person c6_s1 [] 70).2

/-- Default-configuration detector after a detection-free call at t = 0
(`last_check_time = 0`). -/
def c7_s0 : DetectorState :=
  (detect_sleeping_person (mkDetector 0.3 10 2) [] 0).2

/-- An attempt oracle for scenario C: HTTP 500 on attempts 1 and 2, then
HTTP 200 from attempt 3 on. -/
def oracleC : ℕ → AttemptOutcome :=
  fun k => if 3 ≤ k then .response 200 else .response 500

/-! ## Helper lemmas about the detector step -/

/-- Folding preserves any invariant preserved by each step. -/
theorem foldl_preserve {α β : Type _} (f : α → β → α) (P : α → Prop)
    (hf : ∀ a b, P a → P (f a b)) : ∀ (l : List β) (a : α), P a → P (l.foldl f a) := by
  intro l
  induction l with
  | nil => intro a ha; simpa using ha
  | cons x xs ih =>
    intro a ha
    rw [List.foldl_cons]
    exact ih _ (hf _ _ ha)

/-- A closed interval gate drops the call with no state change. -/
theorem detect_gate_closed (s : DetectorState) (r : List PromptResult) (t : ℚ)
    (hg : should_check_frame s t = false) :
    detect_sleeping_person s r t = (none, s) := by
  unfold detect_sleeping_person
  rw [hg]
  simp

/-- While the cooldown is active, a call that passes the interval gate only
updates `last_check_time` and returns no alert. -/
theorem detect_during_cooldown (s : DetectorState) (r : List PromptResult)
    (t cu : ℚ) (hg : should_check_frame s t = true)
    (hcu : s.alert_cooldown_until = some cu) (hlt : t < cu) :
    detect_sleeping_person s r t = (none, { s with last_check_time := some t }) := by
  unfold detect_sleeping_person
  rw [hg]
  simp [cooldown_active, hcu, hlt]

/-- The configuration fields never change across a call. -/
theorem detect_preserves_config (s : DetectorState) (r : List PromptResult) (t : ℚ) :
    (detect_sleeping_person s r t).2.confidence_threshold = s.confidence_threshold ∧
    (detect_sleeping_person s r t).2.persistence_seconds = s.persistence_seconds ∧
    (detect_sleeping_person s r t).2.check_interval = s.check_interval := by
  simp only [detect_sleeping_person]
  (repeat' split) <;> exact ⟨rfl, rfl, rfl⟩

/-- When the gate passes, `last_check_time` is set to the call's timestamp in
every branch. -/
theorem detect_last_check (s : DetectorState) (r : List PromptResult) (t : ℚ)
    (hg : should_check_frame s t = true) :
    (detect_sleeping_person s r t).2.last_check_time = some t := by
  simp only [detect_sleeping_person, hg]
  (repeat' split) <;> first | rfl | simp_all

/-- Any detection produced by the prompt scan carries the call's timestamp. -/
theorem select_best_timestamp (th t : ℚ) (results : List PromptResult) (bd : Det)
    (h : select_best th t results = some bd) : bd.timestamp = t := by
  have main : (∀ d, (results.foldl (scan_prompt th t) ((none : Option Det), (0 : ℚ))).1 = some d →
      d.timestamp = t) := by
    refine foldl_preserve (scan_prompt th t)
      (fun acc => ∀ d, acc.1 = some d → d.timestamp = t) ?_ results (none, 0) (by simp)
    intro acc r hacc
    unfold scan_prompt
    refine foldl_preserve _ (fun acc2 => ∀ d, acc2.1 = some d → d.timestamp = t) ?_ _ acc hacc
    intro acc2 is hacc2 d hd
    by_cases hc : is.2 > th ∧ is.2 > acc2.2
    · rw [if_pos hc] at hd
      simp only [Option.some.injEq] at hd
      rw [← hd]
    · rw [if_neg hc] at hd
      exact hacc2 d hd
  exact main bd h

/-- Inversion of a firing call: the gate passed, the cooldown was inactive,
the prompt scan produced a best detection whose box is horizontal, the
persistence check succeeded on the post-insertion state, the alert was built
from that state and detection, and the final state is that state with the
cooldown set 30 seconds past the call's timestamp. -/
theorem detect_fire_inv (s : DetectorState) (r : List PromptResult) (t : ℚ)
    (a : Alert) (s' : DetectorState)
    (h : detect_sleeping_person s r t = (some a, s')) :
    ∃ bd, select_best s.confidence_threshold t r = some bd ∧
      ∃ b, bd.box = some b ∧ analyze_orient b = "horizontal" ∧
        check_persistence
          (add_to_history { s with last_check_time := some t }
            { bd with orient := analyze_orient b }) t = true ∧
        a = create_alert
          (add_to_history { s with last_check_time := some t }
            { bd with orient := analyze_orient b })
          { bd with orient := analyze_orient b } t ∧
        s' = { add_to_history { s with last_check_time := some t }
                 { bd with orient := analyze_orient b } with
               alert_cooldown_until := some (t + 30) } := by
  simp only [detect_sleeping_person] at h
  split at h
  · split at h
    · simp at h
    · split at h
      · simp at h
      · rename_i bd heq
        split at h
        · simp at h
        · rename_i b heqb
          split at h
          · rename_i hor
            split at h
            · rename_i hcp
              simp only [Prod.mk.injEq, Option.some.injEq] at h
              exact ⟨bd, heq, b, heqb, hor, hcp, h.1.symm, h.2.symm⟩
            · simp at h
          · simp at h
  · simp at h

/-- While the cooldown instant is unchanged and every call happens strictly
before it, the run produces no alerts and leaves the cooldown instant as it
is. -/
theorem run_all_none_during_cooldown (calls : List (List PromptResult × ℚ)) :
    ∀ (s : DetectorState) (cu : ℚ), s.alert_cooldown_until = some cu →
      (∀ c ∈ calls, c.2 < cu) →
      ((run_detector s calls).1.all fun o => o.isNone) = true ∧
      (run_detector s calls).2.alert_cooldown_until = some cu := by
  induction calls with
  | nil =>
    intro s cu hcu _
    exact ⟨rfl, hcu⟩
  | cons c rest ih =>
    intro s cu hcu hlt
    have hc : c.2 < cu := hlt c (List.mem_cons_self _ _)
    have hrest : ∀ d ∈ rest, d.2 < cu := fun d hd => hlt d (List.mem_cons_of_mem _ hd)
    rcases Bool.eq_false_or_eq_true (should_check_frame s c.2) with hg | hg
    · have hstep := detect_during_cooldown s c.1 c.2 cu hg hcu hc
      have hmain := ih { s with last_check_time := some c.2 } cu hcu hrest
      simp only [run_detector, hstep]
      simpa using hmain
    · have hstep := detect_gate_closed s c.1 c.2 hg
      have hmain := ih s cu hcu hrest
      simp only [run_detector, hstep]
      simpa using hmain

/-- Claim C1: once a firing call happens at time T, the evaluator leaves the
call with `alert_cooldown_until = T + 30` (the source's fixed 30-second
cooldown), and no later call with a timestamp strictly before T + 30
returns an alert for this instance, regardless of the samples fed in
between. -/
theorem cooldown_idempotence (s : DetectorState) (r : List PromptResult) (T : ℚ)
    (hfire : (detect_sleeping_person s r T).1.isSome = true)
    (calls : List (List PromptResult × ℚ))
    (hlt : ∀ c ∈ calls, c.2 < T + 30) :
    (detect_sleeping_person s r T).2.alert_cooldown_until = some (T + 30) ∧
    ((run_detector (detect_sleeping_person s r T).2 calls).1.all
      fun o => o.isNone) = true := by
  obtain ⟨a, ha⟩ := Option.isSome_iff_exists.mp hfire
  have hpair := (Prod.mk.eta (p := detect_sleeping_person s r T)).symm
  rw [ha] at hpair
  obtain ⟨bd, -, b, -, -, -, -, hs'⟩ := detect_fire_inv s r T a _ hpair
  have hcool : (detect_sleeping_person s r T).2.alert_cooldown_until = some (T + 30) := by
    rw [hs']
  exact ⟨hcool, (run_all_none_during_cooldown calls _ (T + 30) hcool hlt).1⟩

/-- Concrete instance of C1: the detector that fires at T = 2 has its
cooldown set to 32, and two further qualifying calls at t = 10 and t = 20
both return no alert. -/
theorem cooldown_idempotence_witness :
    (detect_sleeping_person fireStart (horizResult 0.5) 2).2.alert_cooldown_until
      = some (2 + 30) ∧
    ((run_detector (detect_sleeping_person fireStart (horizResult 0.5) 2).2
        [(horizResult 0.5, 10), (horizResult 0.9, 20)]).1.all
      fun o => o.isNone) = true :=
  cooldown_idempotence fireStart (horizResult 0.5) 2
    (by norm_num [detect_sleeping_person, fireStart, mkDetector, horizResult,
      should_check_frame, cooldown_active, select_best, scan_prompt, analyze_orient,
      add_to_history, check_persistence, recent_horizontal, create_alert,
      List.enum, List.enumFrom])
    [(horizResult 0.5, 10), (horizResult 0.9, 20)]
    (by intro c hc; fin_cases hc <;> norm_num)

/-- The persistence decision, restated with an integer ceiling: it succeeds
exactly when the whole history holds at least 2 entries and the count of
recent horizontal entries reaches
`ceil(persistence_seconds / check_interval * 0.7)` (for an integer count,
reaching the rational bound is the same as reaching its ceiling). -/
theorem check_persistence_iff (s : DetectorState) (t : ℚ) :
    check_persistence s t = true ↔
      2 ≤ s.detections_history.length ∧
      ⌈s.persistence_seconds / s.check_interval * (0.7 : ℚ)⌉ ≤
        ((recent_horizontal s t).length : ℤ) := by
  unfold check_persistence
  split
  · rename_i hlen
    simp only [Bool.false_eq_true, false_iff, not_and]
    intro h2
    exact absurd h2 (by omega)
  · rename_i hlen
    have h2 : 2 ≤ s.detections_history.length := by omega
    simp only [decide_eq_true_eq, ge_iff_le, h2, true_and]
    rw [Int.ceil_le]
    constructor <;> intro h <;> exact_mod_cast h

/-- Claim C2: the persistence evaluator succeeds only when the count of
qualifying samples newer than `now - persistence_seconds` reaches
`ceil(persistence_seconds / check_interval * 0.7)`; with
`persistence_seconds = 10` and `check_interval_seconds = 2` the bound is 4,
so five qualifying samples at t = 0, 2, 4, 6, 8 evaluated at t = 8 pass
while three at t = 0, 2, 4 do not; and a firing call always has at least
the required count of qualifying samples in its window. -/
theorem persistence_count_threshold :
    (∀ (s : DetectorState) (t : ℚ),
      check_persistence s t = true ↔
        2 ≤ s.detections_history.length ∧
        ⌈s.persistence_seconds / s.check_interval * (0.7 : ℚ)⌉ ≤
          ((recent_horizontal s t).length : ℤ)) ∧
    ⌈(10 : ℚ) / 2 * 0.7⌉ = 4 ∧
    check_persistence scenarioA_state 8 = true ∧
    (recent_horizontal scenarioA_state 8).length = 5 ∧
    check_persistence scenarioB_state 8 = false ∧
    (recent_horizontal scenarioB_state 8).length = 3 ∧
    (∀ (s : DetectorState) (r : List PromptResult) (t : ℚ),
      (detect_sleeping_person s r t).1.isSome = true →
        ⌈s.persistence_seconds / s.check_interval * (0.7 : ℚ)⌉ ≤
          ((recent_horizontal (detect_sleeping_person s r t).2 t).length : ℤ)) := by
  refine ⟨check_persistence_iff, ?_, ?_, ?_, ?_, ?_, ?_⟩
  · rw [show ((10 : ℚ) / 2 * 0.7) = 7 / 2 by norm_num, Int.ceil_eq_iff]
    norm_num
  · norm_num [scenarioA_state, check_persistence, recent_horizontal, add_to_history,
      horizSample, mkDetector]
  · norm_num [scenarioA_state, recent_horizontal, add_to_history, horizSample, mkDetector]
  · norm_num [scenarioB_state, check_persistence, recent_horizontal, add_to_history,
      horizSample, mkDetector]
  · norm_num [scenarioB_state, recent_horizontal, add_to_history, horizSample, mkDetector]
  · intro s r t hf
    obtain ⟨a, ha⟩ := Option.isSome_iff_exists.mp hf
    have hpair := (Prod.mk.eta (p := detect_sleeping_person s r t)).symm
    rw [ha] at hpair
    obtain ⟨bd, -, b, -, -, hcp, -, hs'⟩ := detect_fire_inv s r t a _ hpair
    have hiff := (check_persistence_iff _ t).mp hcp
    rw [hs']
    exact hiff.2

/-- Concrete instance of the firing clause of C2: the call that fires at
t = 2 has at least the required count of qualifying samples. -/
theorem persistence_count_threshold_witness :
    ⌈fireStart.persistence_seconds / fireStart.check_interval * (0.7 : ℚ)⌉ ≤
      ((recent_horizontal (detect_sleeping_person fireStart (horizResult 0.5) 2).2
          2).length : ℤ) :=
  persistence_count_threshold.2.2.2.2.2.2 fireStart (horizResult 0.5) 2
    (by norm_num [detect_sleeping_person, fireStart, mkDetector, horizResult,
      should_check_frame, cooldown_active, select_best, scan_prompt, analyze_orient,
      add_to_history, check_persistence, recent_horizontal, create_alert,
      List.enum, List.enumFrom])

/-- Against attempts that all fail, the unrolled retry loop runs all its
remaining iterations, sleeps between consecutive attempts only, and returns
the failure record. -/
theorem send_from_all_fail (oracle : ℕ → AttemptOutcome) (d : ℚ)
    (hfail : ∀ k, attempt_success (oracle k) = none) :
    ∀ (r attempt : ℕ), 1 ≤ r →
      send_alert_from oracle d attempt r =
        { success := false, status := none, attempts := r,
          waits := List.replicate (r - 1) d } := by
  intro r
  induction r with
  | zero => intro attempt h; omega
  | succ n ih =>
    intro attempt _
    cases n with
    | zero =>
      rw [send_alert_from]
      simp [hfail]
    | succ m =>
      rw [send_alert_from]
      simp only [hfail]
      rw [if_neg (by omega : ¬(m + 1 = 0))]
      rw [ih (attempt + 1) (by omega)]
      simp [List.replicate_succ]

/-- Claim C3: against a permanently failing endpoint (every attempt sees a
non-success status or a transport failure), `send_alert` makes exactly
`retry_attempts` attempts, sleeps `retry_delay` exactly between consecutive
attempts (hence `retry_attempts - 1` times) and not after the last, and
returns the failure result rather than raising. -/
theorem delivery_retry_bound (oracle : ℕ → AttemptOutcome) (n : ℕ) (d : ℚ)
    (hn : 1 ≤ n) (hfail : ∀ k, attempt_success (oracle k) = none) :
    send_alert oracle n d =
      { success := false, status := none, attempts := n,
        waits := List.replicate (n - 1) d } :=
  send_from_all_fail oracle d hfail n 1 hn

/-- Concrete instance of C3: three attempts against an endpoint that always
answers HTTP 500, with a 2-second delay between attempts. -/
theorem delivery_retry_bound_witness :
    send_alert (fun _ => .response 500) 3 2 =
      { success := false, status := none, attempts := 3,
        waits := List.replicate 2 (2 : ℚ) } :=
  delivery_retry_bound (fun _ => .response 500) 3 2 (by norm_num)
    (fun k => by rfl)

/-- If every attempt before K fails and attempt K observes a success status,
the unrolled loop stops at attempt K with that status, having slept between
each consecutive pair of the K attempts made. -/
theorem send_from_success (oracle : ℕ → AttemptOutcome) (d : ℚ) (st : ℕ)
    (hst : success_status st = true) :
    ∀ (r attempt K : ℕ), attempt ≤ K → K < attempt + r →
      (∀ k, attempt ≤ k → k < K → attempt_success (oracle k) = none) →
      oracle K = .response st →
      send_alert_from oracle d attempt r =
        { success := true, status := some st, attempts := K - attempt + 1,
          waits := List.replicate (K - attempt) d } := by
  intro r
  induction r with
  | zero => intro attempt K h1 h2 _ _; omega
  | succ n ih =>
    intro attempt K h1 h2 hfail hK
    rcases Nat.eq_or_lt_of_le h1 with heq | hlt
    · subst heq
      have hsucc : attempt_success (oracle attempt) = some st := by
        rw [hK]
        simp [attempt_success, hst]
      rw [send_alert_from]
      simp [hsucc, Nat.sub_self]
    · cases n with
      | zero => exact absurd hlt (by omega)
      | succ m =>
        rw [send_alert_from]
        simp only [hfail attempt (le_refl _) hlt]
        rw [if_neg (by omega : ¬(m + 1 = 0))]
        rw [ih (attempt + 1) K hlt (by omega) (fun k hk1 hk2 => hfail k (by omega) hk2) hK]
        have harith : K - attempt = (K - (attempt + 1)) + 1 := by omega
        rw [harith]
        simp [List.replicate_succ]

/-- Claim C9: if attempt K is the first to observe a success status
(200/201/202) and K ≤ retry_attempts, `send_alert` returns the success
result with that status after exactly K attempts, sleeping only between the
K attempts made. -/
theorem delivery_success_path (oracle : ℕ → AttemptOutcome) (n : ℕ) (d : ℚ)
    (K st : ℕ) (hK1 : 1 ≤ K) (hKn : K ≤ n)
    (hfail : ∀ k, 1 ≤ k → k < K → attempt_success (oracle k) = none)
    (hK : oracle K = .response st) (hst : success_status st = true) :
    send_alert oracle n d =
      { success := true, status := some st, attempts := K,
        waits := List.replicate (K - 1) d } := by
  have h := send_from_success oracle d st hst n 1 K hK1 (by omega) hfail hK
  rw [send_alert, h]
  have : K - 1 + 1 = K := by omega
  rw [this]

/-- Concrete instance of C9 (scenario C): HTTP 500 on attempts 1 and 2, then
HTTP 200 on attempt 3, with `retry_attempts = 3`: delivered with status 200
after exactly 3 attempts. -/
theorem delivery_success_path_witness :
    send_alert oracleC 3 2 =
      { success := true, status := some 200, attempts := 3,
        waits := List.replicate 2 (2 : ℚ) } :=
  delivery_success_path oracleC 3 2 3 200 (by norm_num) (by norm_num)
    (by intro k h1 h2; interval_cases k <;> rfl)
    (by rfl) (by rfl)

/-- Claim C4 counterexample: with `persistence_seconds = 2` and
`check_interval_seconds = 2` (required count `ceil(0.7) = 1 ≤ 1`), the
qualifying call at t = 50 on `fireStart` fires although only one sample —
the newly inserted one — lies in the persistence window: the `>= 2` guard
of `_check_persistence` counts the whole 60-second history (here the stale
t = 0 sample plus the new one), not the qualifying subset. -/
theorem min_sample_counterexample :
    c4_run.1.isSome = true ∧
    (recent_horizontal c4_run.2 50).length = 1 ∧
    ⌈(2 : ℚ) / 2 * 0.7⌉ ≤ (1 : ℤ) := by
  refine ⟨?_, ?_, ?_⟩
  · norm_num [c4_run, detect_sleeping_person, fireStart, mkDetector, horizResult,
      should_check_frame, cooldown_active, select_best, scan_prompt, analyze_orient,
      add_to_history, check_persistence, recent_horizontal, create_alert,
      List.enum, List.enumFrom]
  · norm_num [c4_run, detect_sleeping_person, fireStart, mkDetector, horizResult,
      should_check_frame, cooldown_active, select_best, scan_prompt, analyze_orient,
      add_to_history, check_persistence, recent_horizontal, create_alert,
      List.enum, List.enumFrom]
  · rw [Int.ceil_le]
    norm_num

/-- Claim C4 amended: the minimum-2 guard applies to the whole retained
history window (`len(self.detections_history) >= 2` after the insertion),
not to the qualifying subset: a firing call always leaves a history with at
least 2 samples, but its qualifying subset may hold fewer than 2. -/
theorem min_history_guard (s : DetectorState) (r : List PromptResult) (t : ℚ)
    (h : (detect_sleeping_person s r t).1.isSome = true) :
    2 ≤ (detect_sleeping_person s r t).2.detections_history.length := by
  obtain ⟨a, ha⟩ := Option.isSome_iff_exists.mp h
  have hpair := (Prod.mk.eta (p := detect_sleeping_person s r t)).symm
  rw [ha] at hpair
  obtain ⟨bd, -, b, -, -, hcp, -, hs'⟩ := detect_fire_inv s r t a _ hpair
  have h2 := ((check_persistence_iff _ t).mp hcp).1
  rw [hs']
  exact h2

/-- Concrete instance of the amended C4: the firing call at t = 50 leaves a
2-sample history. -/
theorem min_history_guard_witness :
    2 ≤ (detect_sleeping_person fireStart (horizResult 0.5) 50).2.detections_history.length :=
  min_history_guard fireStart (horizResult 0.5) 50
    (by norm_num [detect_sleeping_person, fireStart, mkDetector, horizResult,
      should_check_frame, cooldown_active, select_best, scan_prompt, analyze_orient,
      add_to_history, check_persistence, recent_horizontal, create_alert,
      List.enum, List.enumFrom])

/-- Claim C5 counterexample: the firing call at t = 2 carries the current
frame's detection with score 1/2, while the qualifying subset of the window
also holds the earlier sample with the strictly higher score 9/10 — the
alert does not carry the highest-scoring qualifying sample. -/
theorem best_sample_counterexample :
    c5_run.1.map Alert.confidenceScore = some (1 / 2) ∧
    (recent_horizontal c5_run.2 2).map Det.score = [9 / 10, 1 / 2] ∧
    (1 : ℚ) / 2 < 9 / 10 := by
  refine ⟨?_, ?_, by norm_num⟩
  · norm_num [c5_run, c5_start, detect_sleeping_person, mkDetector, horizResult,
      should_check_frame, cooldown_active, select_best, scan_prompt, analyze_orient,
      add_to_history, check_persistence, recent_horizontal, create_alert,
      List.enum, List.enumFrom]
  · norm_num [c5_run, c5_start, detect_sleeping_person, mkDetector, horizResult,
      should_check_frame, cooldown_active, select_best, scan_prompt, analyze_orient,
      add_to_history, check_persistence, recent_horizontal, create_alert,
      List.enum, List.enumFrom]

/-- Claim C5 amended: the sample carried by a firing decision is the current
call's best detection — the highest-scoring above-threshold detection among
the current frame's prompt outputs — not the highest-scoring sample of the
history window. -/
theorem alert_carries_current_best (s : DetectorState) (r : List PromptResult)
    (t : ℚ) (h : (detect_sleeping_person s r t).1.isSome = true) :
    (detect_sleeping_person s r t).1.map Alert.confidenceScore =
      (select_best s.confidence_threshold t r).map Det.score ∧
    (detect_sleeping_person s r t).1.map Alert.promptUsed =
      (select_best s.confidence_threshold t r).map Det.prompt ∧
    (detect_sleeping_person s r t).1.map Alert.boundingBox =
      (select_best s.confidence_threshold t r).map Det.box := by
  obtain ⟨a, ha⟩ := Option.isSome_iff_exists.mp h
  have hpair := (Prod.mk.eta (p := detect_sleeping_person s r t)).symm
  rw [ha] at hpair
  obtain ⟨bd, hbd, b, hb, -, -, hA, -⟩ := detect_fire_inv s r t a _ hpair
  rw [ha, hbd, hA]
  exact ⟨rfl, rfl, by simp [create_alert, hb]⟩

/-- Concrete instance of the amended C5 at the t = 2 firing call. -/
theorem alert_carries_current_best_witness :
    (detect_sleeping_person c5_start (horizResult 0.5) 2).1.map Alert.confidenceScore =
      (select_best c5_start.confidence_threshold 2 (horizResult 0.5)).map Det.score ∧
    (detect_sleeping_person c5_start (horizResult 0.5) 2).1.map Alert.promptUsed =
      (select_best c5_start.confidence_threshold 2 (horizResult 0.5)).map Det.prompt ∧
    (detect_sleeping_person c5_start (horizResult 0.5) 2).1.map Alert.boundingBox =
      (select_best c5_start.confidence_threshold 2 (horizResult 0.5)).map Det.box :=
  alert_carries_current_best c5_start (horizResult 0.5) 2
    (by norm_num [c5_start, detect_sleeping_person, mkDetector, horizResult,
      should_check_frame, cooldown_active, select_best, scan_prompt, analyze_orient,
      add_to_history, check_persistence, recent_horizontal, create_alert,
      List.enum, List.enumFrom])

/-- Claim C6 counterexample: after a qualifying call at t = 0 and a
detection-free call at t = 70 (which passes the interval gate), the t = 0
sample is still retained although its timestamp is ≤ 70 - 60: pruning does
not happen on calls that insert nothing. -/
theorem pruning_counterexample :
    c6_run.detections_history.map Det.timestamp = [0] ∧ (0 : ℚ) ≤ 70 - 60 := by
  constructor
  · norm_num [c6_run, c6_s1, detect_sleeping_person, mkDetector, horizResult,
      should_check_frame, cooldown_active, select_best, scan_prompt, analyze_orient,
      add_to_history, check_persistence, recent_horizontal, create_alert,
      List.enum, List.enumFrom]
  · norm_num

/-- Claim C6 amended: pruning happens exactly on insertion: every call
either leaves the history untouched, or (when a horizontal detection is
appended) leaves only samples with `timestamp > now - 60`. -/
theorem pruning_on_insertion (s : DetectorState) (r : List PromptResult) (t : ℚ) :
    (detect_sleeping_person s r t).2.detections_history = s.detections_history ∨
    ∀ d ∈ (detect_sleeping_person s r t).2.detections_history,
      t - 60 < d.timestamp := by
  simp only [detect_sleeping_person]
  (repeat' split) <;> try (exact Or.inl rfl)
  all_goals rename_i xo bd heq xb b heqb hor hcp
  all_goals
    right
    intro d hd
    have hts : bd.timestamp = t := select_best_timestamp _ _ _ _ heq
    simp only [add_to_history, List.mem_filter, decide_eq_true_eq] at hd
    have hgt := hd.2
    simp only [hts] at hgt
    exact hgt

/-- Claim C7 counterexample: with `last_check_time = 0` and
`check_interval = 2`, two consecutive calls at now1 = 1 (throttled) and
now2 = 5/2 satisfy `now2 - now1 < check_interval`, yet the second call does
update `last_check_time` — the gate measures from the last accepted call,
not from the previous call. -/
theorem throttling_counterexample :
    detect_sleeping_person c7_s0 [] 1 = (none, c7_s0) ∧
    (5 / 2 : ℚ) - 1 < 2 ∧
    (detect_sleeping_person (detect_sleeping_person c7_s0 [] 1).2 []
        (5 / 2)).2.last_check_time = some (5 / 2) := by
  refine ⟨?_, by norm_num, ?_⟩
  · norm_num [c7_s0, detect_sleeping_person, mkDetector, should_check_frame,
      cooldown_active, select_best, scan_prompt, analyze_orient, add_to_history,
      check_persistence, recent_horizontal, create_alert, List.enum, List.enumFrom]
  · norm_num [c7_s0, detect_sleeping_person, mkDetector, should_check_frame,
      cooldown_active, select_best, scan_prompt, analyze_orient, add_to_history,
      check_persistence, recent_horizontal, create_alert, List.enum, List.enumFrom]

/-- Claim C7 amended: when the first of two consecutive calls passes the
interval gate (so it sets `last_check_time := now1`), a second call with
`now2 - now1 < check_interval` changes no state and returns no alert. -/
theorem throttling_amended (s : DetectorState) (r1 r2 : List PromptResult)
    (n1 n2 : ℚ) (hgate : should_check_frame s n1 = true)
    (hlt : n2 - n1 < s.check_interval) :
    detect_sleeping_person ((detect_sleeping_person s r1 n1).2) r2 n2 =
      (none, (detect_sleeping_person s r1 n1).2) := by
  have hl := detect_last_check s r1 n1 hgate
  have hcfg := (detect_preserves_config s r1 n1).2.2
  apply detect_gate_closed
  simp only [should_check_frame, hl, hcfg, decide_eq_false_iff_not, not_le]
  exact hlt

/-- Concrete instance of the amended C7: an accepted call at t = 0 followed
by a call at t = 1 (interval 2): the second is dropped with no state
change. -/
theorem throttling_amended_witness :
    detect_sleeping_person ((detect_sleeping_person (mkDetector 0.3 10 2) [] 0).2) [] 1 =
      (none, (detect_sleeping_person (mkDetector 0.3 10 2) [] 0).2) :=
  throttling_amended (mkDetector 0.3 10 2) [] [] 0 1 (by rfl)
    (by norm_num [mkDetector])

/-- Claim C8 counterexample: after the alert at t = 2 (cooldown until 32), a
qualifying sample (score 0.5 > threshold 0.3, horizontal box) arriving at
t = 4 passes the interval gate and updates `last_check_time`, but is NOT
appended to the history window — the cooldown return happens before
ingestion, so samples arriving during cooldown are dropped, not stored. -/
theorem cooldown_ingestion_counterexample :
    analyze_orient (0, 0, 100, 10) = "horizontal" ∧
    (0.3 : ℚ) < 0.5 ∧
    should_check_frame c8_s2 4 = true ∧
    c8_s2.alert_cooldown_until = some 32 ∧
    c8_run.2.last_check_time = some 4 ∧
    c8_run.2.detections_history.map Det.timestamp = [0, 2] := by
  refine ⟨by norm_num [analyze_orient], by norm_num, ?_, ?_, ?_, ?_⟩ <;>
    norm_num [c8_run, c8_s2, fireStart, detect_sleeping_person, mkDetector, horizResult,
      should_check_frame, cooldown_active, select_best, scan_prompt, analyze_orient,
      add_to_history, check_persistence, recent_horizontal, create_alert,
      List.enum, List.enumFrom]

/-- Claim C8 amended: while `now < cooldown_until`, a call that passes the
interval gate still updates `last_check_time := now`, but returns
immediately with no alert and appends nothing: the history window is
unchanged. -/
theorem cooldown_suppresses_ingestion (s : DetectorState) (r : List PromptResult)
    (t cu : ℚ) (hgate : should_check_frame s t = true)
    (hcu : s.alert_cooldown_until = some cu) (hlt : t < cu) :
    (detect_sleeping_person s r t).1 = none ∧
    (detect_sleeping_person s r t).2.detections_history = s.detections_history ∧
    (detect_sleeping_person s r t).2.last_check_time = some t := by
  rw [detect_during_cooldown s r t cu hgate hcu hlt]
  exact ⟨rfl, rfl, rfl⟩

/-- Concrete instance of the amended C8 at the t = 4 call during cooldown. -/
theorem cooldown_suppresses_ingestion_witness :
    (detect_sleeping_person c8_s2 (horizResult 0.5) 4).1 = none ∧
    (detect_sleeping_person c8_s2 (horizResult 0.5) 4).2.detections_history =
      c8_s2.detections_history ∧
    (detect_sleeping_person c8_s2 (horizResult 0.5) 4).2.last_check_time = some 4 :=
  cooldown_suppresses_ingestion c8_s2 (horizResult 0.5) 4 32
    (by norm_num [c8_s2, fireStart, detect_sleeping_person, mkDetector, horizResult,
      should_check_frame, cooldown_active, select_best, scan_prompt, analyze_orient,
      add_to_history, check_persistence, recent_horizontal, create_alert,
      List.enum, List.enumFrom])
    (by norm_num [c8_s2, fireStart, detect_sleeping_person, mkDetector, horizResult,
      should_check_frame, cooldown_active, select_best, scan_prompt, analyze_orient,
      add_to_history, check_persistence, recent_horizontal, create_alert,
      List.enum, List.enumFrom])
    (by norm_num)

/-- Claim C10: orientation classification is total on rationals — a box is
"horizontal" exactly when its height is nonzero and its width/height ratio
exceeds 1.2 (a zero-height box has ratio defined as 0 and is "vertical"),
and every call preserves the invariant that the history window holds only
"horizontal" samples, so degenerate or square-ish boxes never enter the
window and never contribute to a fire. -/
theorem degenerate_box_totality :
    (∀ x1 y1 x2 y2 : ℚ, analyze_orient (x1, y1, x2, y2) = "horizontal" ↔
        (0 < |y2 - y1| ∧ |x2 - x1| / |y2 - y1| > 1.2)) ∧
    (∀ x1 y1 x2 : ℚ, analyze_orient (x1, y1, x2, y1) = "vertical") ∧
    (∀ (s : DetectorState) (r : List PromptResult) (t : ℚ),
      (s.detections_history.all fun d => decide (d.orient = "horizontal")) = true →
      ((detect_sleeping_person s r t).2.detections_history.all
        fun d => decide (d.orient = "horizontal")) = true) := by
  refine ⟨?_, ?_, ?_⟩
  · intro x1 y1 x2 y2
    simp only [analyze_orient]
    by_cases hh : |y2 - y1| > 0
    · rw [if_pos hh]
      by_cases har : |x2 - x1| / |y2 - y1| > 1.2
      · rw [if_pos har]
        simp [hh, har]
      · rw [if_neg har]
        simp only [String.reduceEq, false_iff, not_and]
        intro _
        exact har
    · rw [if_neg hh]
      rw [if_neg (by norm_num : ¬((0 : ℚ) > 1.2))]
      simp only [String.reduceEq, false_iff, not_and]
      intro h0
      exact absurd h0 hh
  · intro x1 y1 x2
    norm_num [analyze_orient]
  · intro s r t hinv
    simp only [detect_sleeping_person]
    (repeat' split) <;> try (exact hinv)
    all_goals rename_i xo bd heq xb b heqb hor hcp
    all_goals
      simp only [List.all_eq_true, decide_eq_true_eq] at hinv ⊢
      intro d hd
      simp only [add_to_history, List.mem_filter, decide_eq_true_eq] at hd
      rcases List.mem_append.mp hd.1 with hmem | hmem
      · exact hinv d hmem
      · rw [List.mem_singleton.mp hmem]
        exact hor

/-- Concrete instance of the invariant clause of C10: starting from the
empty history, a qualifying call leaves only horizontal samples. -/
theorem degenerate_box_totality_witness :
    ((detect_sleeping_person (mkDetector 0.3 10 2) (horizResult 0.5) 0).2.detections_history.all
      fun d => decide (d.orient = "horizontal")) = true :=
  degenerate_box_totality.2.2 (mkDetector 0.3 10 2) (horizResult 0.5) 0 (by rfl)

end Sam3Lab
